import Mathlib

/-!
Verification of the OAuth2 provider domain models
(`provider/oauth2/models.py`) against their natural-language
specification.

The embedding is shallow: Django model classes become Lean structures,
their methods become Lean functions, Python `datetime` / `timedelta`
values become explicit microsecond counts with the normalization rules
Python documents, and Python exceptions become `Option` / `Except`
results.  Parts of the repository that are referenced by
`models.py` but whose source is not available (`provider/utils.py`,
`provider/constants.py`, and the grant-exchange view logic) are
modelled from the specification text and marked as such in their doc
comments.
-/

namespace Provider

/-! ## Time model

Python `datetime` values are modelled by their wall-clock reading in
microseconds together with an optional UTC offset (in microseconds).
`offset = none` models a naive datetime; `offset = some o` models an
aware datetime whose `utcoffset()` is `o`.  Python `timedelta` values
are modelled by their total length in microseconds; `days` and
`seconds` follow Python's documented normalization
(`0 <= seconds < 86400`, with `days` absorbing the sign, i.e. floor
division — Lean's `Int` division is Euclidean, which agrees with floor
for positive divisors). -/

structure Timedelta where
  total_us : Int
deriving Repr, DecidableEq

/-- Python `timedelta.days`: floor of the total length in days. -/
def Timedelta.days (t : Timedelta) : Int :=
  t.total_us / 86400000000

/-- Python `timedelta.seconds`: the normalized seconds component, in
`[0, 86400)`. -/
def Timedelta.seconds (t : Timedelta) : Int :=
  t.total_us % 86400000000 / 1000000

structure Datetime where
  us : Int
  offset : Option Int
deriving Repr, DecidableEq

/-- `django.utils.timezone.is_aware`. -/
def Datetime.is_aware (d : Datetime) : Bool :=
  d.offset.isSome

/-- `django.utils.timezone.is_naive`. -/
def Datetime.is_naive (d : Datetime) : Bool :=
  d.offset.isNone

/-- `django.utils.timezone.make_aware(value, timezone.utc)`: attach the
UTC timezone to a naive datetime without changing its wall-clock
reading. -/
def Datetime.make_aware_utc (d : Datetime) : Datetime :=
  { us := d.us, offset := some 0 }

/-- The instant a datetime denotes, in microseconds UTC, reading a
naive value as UTC (the convention the code adopts for values stored
by MySQL). -/
def Datetime.utc_us (d : Datetime) : Int :=
  d.us - d.offset.getD 0

/-- Python datetime subtraction: defined between two naive or two
aware values (for aware values, the difference of the instants they
denote); mixing naive and aware raises `TypeError`, modelled as
`none`. -/
def Datetime.sub (a b : Datetime) : Option Timedelta :=
  match a.offset, b.offset with
  | none, none => some ⟨a.us - b.us⟩
  | some oa, some ob => some ⟨(a.us - oa) - (b.us - ob)⟩
  | _, _ => none

/-! ## Users and clients -/

/-- A user of the configured `AUTH_USER_MODEL`, as far as the models
in this file inspect it. -/
structure User where
  pk : Nat
  username : String
deriving Repr, DecidableEq

/-- Modelled from the spec: `provider/constants.py` is not in the
sources.  The client type enum is `{confidential, public}`; the
public client type has the integer value `1` that
`Client.get_default_token_expiry` compares against. -/
def CLIENT_TYPE_PUBLIC : Int := 1

/-- The `Client` model: an application registered with the provider.
`user` is an optional foreign key (`blank=True, null=True`). -/
structure Client where
  user : Option User
  name : String
  url : String
  redirect_uri : String
  client_id : String
  client_secret : String
  client_type : Int
deriving Repr, DecidableEq

/-- `Client.is_public`: `return self.user != None`. -/
def Client.is_public (c : Client) : Bool :=
  c.user != none

/-- `Client.sandbox_client`: `return self.user and self.user.username
== 'oauth2-sandbox-user'` — the truthiness of the Python expression
(`None` when no user is set, which is falsy). -/
def Client.sandbox_client (c : Client) : Bool :=
  match c.user with
  | none => false
  | some u => u.username == "oauth2-sandbox-user"

/-! ## Serialization

`Client.serialize` builds a dict of the client's fields, with the
user foreign key flattened through `serialize_instance` and the empty
string standing for "no user".  `Client.deserialize` walks the model's
fields, rehydrating relational values through `deserialize_instance`
when the stored value is truthy.  `serialize_instance` /
`deserialize_instance` live in `provider/utils.py`, which is not in
the sources. -/

/-- Modelled from the spec: `serialize_instance` from
`provider/utils.py` is not in the sources.  The spec says serialize
produces "a transport-safe representation" of the referenced entity;
we model it as the record of the user's fields. -/
structure SerializedUser where
  pk : Nat
  username : String
deriving Repr, DecidableEq

/-- Modelled from the spec: `serialize_instance` from
`provider/utils.py` is not in the sources; it flattens a model
instance to its transport representation. -/
def serialize_instance (u : User) : SerializedUser :=
  ⟨u.pk, u.username⟩

/-- Modelled from the spec: `deserialize_instance` from
`provider/utils.py` is not in the sources; it rehydrates a referenced
entity from its serialized form. -/
def deserialize_instance (s : SerializedUser) : User :=
  ⟨s.pk, s.username⟩

/-- The dict produced by `Client.serialize`.  The `user` entry is the
serialized owning user, or the (falsy) empty string when no user is
set — modelled as `none`. -/
structure SerializedClient where
  user : Option SerializedUser
  name : String
  url : String
  redirect_uri : String
  client_id : String
  client_secret : String
  client_type : Int
deriving Repr, DecidableEq

/-- `Client.serialize`: `dict(user=serialize_instance(self.user) if
self.user else "", name=..., url=..., redirect_uri=...,
client_id=..., client_secret=..., client_type=...)`. -/
def Client.serialize (c : Client) : SerializedClient :=
  { user := c.user.map serialize_instance
    name := c.name
    url := c.url
    redirect_uri := c.redirect_uri
    client_id := c.client_id
    client_secret := c.client_secret
    client_type := c.client_type }

/-- The exceptions Django raises inside `Client.deserialize`'s call
to `cls(**kwargs)`. -/
inductive DjangoError where
  | ValueError
deriving Repr, DecidableEq

/-- `Client.deserialize`: returns `None` on empty input (`if not
data: return None`); otherwise reads each model field out of the
dict, rehydrating the relational `user` value through
`deserialize_instance` only when it is truthy (`if val and
field.remote_field`), and constructs a `Client` from the collected
kwargs.  When the client was serialized without an owning user, the
stored `user` value is the empty string: it is falsy, so the
rehydration branch is skipped and `kwargs['user'] = ""` reaches
`cls(**kwargs)`, where Django's forward foreign-key descriptor
rejects any value that is neither `None` nor a `User` instance by
raising `ValueError` — modelled as `.error .ValueError`. -/
def Client.deserialize (data : Option SerializedClient) :
    Except DjangoError (Option Client) :=
  match data with
  | none => .ok none
  | some d =>
    match d.user with
    | none => .error .ValueError
    | some su =>
      .ok (some { user := some (deserialize_instance su)
                  name := d.name
                  url := d.url
                  redirect_uri := d.redirect_uri
                  client_id := d.client_id
                  client_secret := d.client_secret
                  client_type := d.client_type })

/-! ## Expiry policy and token generation -/

/-- Modelled from the spec: the TTL configuration read by
`provider/utils.py` (not in the sources).  The spec's Expiry Policy
is parameterized by "configured time-to-live values", with the token
delta differing by client type.  Deltas are in microseconds. -/
structure ExpiryConfig where
  token_delta_public : Int
  token_delta_confidential : Int
  code_delta : Int
deriving Repr, DecidableEq

/-- Modelled from the spec: `get_token_expiry(is_public)` from
`provider/utils.py` is not in the sources.  Spec §4.2: returns
`now() + configured_delta`, where the delta differs by client type;
`now()` is an injectable time source, passed explicitly here. -/
def get_token_expiry (cfg : ExpiryConfig) (public : Bool) (now : Datetime) : Datetime :=
  { us := now.us + (if public then cfg.token_delta_public else cfg.token_delta_confidential)
    offset := now.offset }

/-- Modelled from the spec: `get_code_expiry()` from
`provider/utils.py` is not in the sources.  Spec §4.2: returns
`now() + configured_delta` for grants ("now + configured grant
TTL"). -/
def get_code_expiry (cfg : ExpiryConfig) (now : Datetime) : Datetime :=
  { us := now.us + cfg.code_delta, offset := now.offset }

/-- Modelled from the spec: the Token Generator (`short_token` /
`long_token` in `provider/utils.py`, not in the sources) draws from a
cryptographically secure random source.  We model the randomness
consumed by one generation as an abstract state carrying the strings
it produces. -/
structure TokenGen where
  long : String
  short : String
deriving Repr, DecidableEq

/-- Modelled from the spec: `long_token` from `provider/utils.py` is
not in the sources; it returns a long random identifier from the
generator's random source. -/
def long_token (g : TokenGen) : String := g.long

/-- Modelled from the spec: `short_token` from `provider/utils.py` is
not in the sources; it returns a short random identifier from the
generator's random source. -/
def short_token (g : TokenGen) : String := g.short

/-- `Client.get_default_token_expiry`: `public = (self.client_type ==
1); return get_token_expiry(public)`.  The ambient configuration and
clock are passed explicitly. -/
def Client.get_default_token_expiry (c : Client) (cfg : ExpiryConfig) (now : Datetime) : Datetime :=
  let public := c.client_type == 1
  get_token_expiry cfg public now

/-! ## Grants -/

/-- The `Grant` model: a single-use authorization code. -/
structure Grant where
  user : User
  client : Client
  code : String
  expires : Datetime
  redirect_uri : String
  scope : Int
deriving Repr, DecidableEq

/-- Construction of a `Grant` row with Django's field defaults
applied: `code = models.CharField(default=long_token)` and
`expires = models.DateTimeField(default=get_code_expiry)` are used
exactly when no explicit value is supplied, and
`scope = models.IntegerField(default=0)`. -/
def Grant.create (user : User) (client : Client) (code : Option String)
    (expires : Option Datetime) (redirect_uri : String) (scope : Option Int)
    (cfg : ExpiryConfig) (now : Datetime) (gen : TokenGen) : Grant :=
  { user := user
    client := client
    code := code.getD (long_token gen)
    expires := expires.getD (get_code_expiry cfg now)
    redirect_uri := redirect_uri
    scope := scope.getD 0 }

/-- Modelled from the spec: the error kinds of §7.  Only
`InvalidGrant` is raised by the operations modelled here. -/
inductive OAuthError where
  | InvalidGrant
deriving Repr, DecidableEq

/-- The grant store: the rows of the `oauth2_grant` table that the
exchange operation consults. -/
def GrantStore := List Grant

/-- Modelled from the spec: grant `issue` (§4.4) — the created grant
is persisted into the store.  (The view layer performing this is not
in the sources.) -/
def GrantStore.issue (store : List Grant) (g : Grant) : List Grant :=
  g :: store

/-- Modelled from the spec: grant `exchange(code, client,
redirect_uri)` (§4.4) — the view layer performing this is not in the
sources.  It fails with `InvalidGrant` if the code is unknown for the
client, the redirect URI mismatches, or `current_time >= expires`;
on success it deletes the grant from the store and returns it (the
paired token creation is outside this model). -/
def GrantStore.exchange (store : List Grant) (code : String) (client : Client)
    (redirect_uri : String) (now : Datetime) :
    Except OAuthError (Grant × List Grant) :=
  match store.find? (fun g => g.code == code && g.client == client) with
  | none => .error .InvalidGrant
  | some g =>
    if g.redirect_uri == redirect_uri && now.utc_us < g.expires.utc_us then
      .ok (g, store.filter (fun h => !(h.code == code && h.client == client)))
    else
      .error .InvalidGrant

/-! ## Access tokens -/

/-- Modelled from the spec: `SCOPES` from `provider/constants.py` is
not in the sources.  The spec treats scope as an integer enumeration,
"an opaque ordered set of flags with a default (first defined
value)"; we fix a concrete enumeration of that shape. -/
def SCOPES : List (Int × String) :=
  [(2, "read"), (4, "write"), (6, "read+write")]

/-- The `AccessToken` model.  `expires` has no field default; it is
`none` until assigned (by the caller or by `save`). -/
structure AccessToken where
  user : User
  token : String
  client : Client
  expires : Option Datetime
  scope : Int
  logged_out : Option Datetime
  device_id : Option String
deriving Repr, DecidableEq

/-- Construction of an `AccessToken` row with Django's field defaults
applied: `token = models.CharField(default=long_token)` and
`scope = models.IntegerField(default=constants.SCOPES[0][0])` are
used exactly when no explicit value is supplied. -/
def AccessToken.create (user : User) (client : Client) (token : Option String)
    (expires : Option Datetime) (scope : Option Int) (gen : TokenGen) : AccessToken :=
  { user := user
    token := token.getD (long_token gen)
    client := client
    expires := expires
    scope := scope.getD (SCOPES.head (by decide)).1
    logged_out := none
    device_id := none }

/-- `AccessToken.save`: `if not self.expires: self.expires =
self.client.get_default_token_expiry()` before persisting (a Python
`datetime` is always truthy, so the branch fires exactly when
`expires` is `None`).  `saveTime` is the clock reading at the moment
`save` runs. -/
def AccessToken.save (t : AccessToken) (cfg : ExpiryConfig) (saveTime : Datetime) : AccessToken :=
  if t.expires.isNone then
    { t with expires := some (t.client.get_default_token_expiry cfg saveTime) }
  else
    t

/-- `AccessToken.get_expire_delta`: reads `self.expires`; with the
`django.utils.timezone` module available, a naive operand is made
UTC-aware when the other operand is aware, then `timedelta =
expiration - reference; return timedelta.days*86400 +
timedelta.seconds`.  `none` models an uncaught exception (including
`self.expires` being `None` on an unsaved token). -/
def AccessToken.get_expire_delta (t : AccessToken) (reference : Datetime) : Option Int :=
  match t.expires with
  | none => none
  | some e =>
    let p :=
      if reference.is_aware && e.is_naive then
        (e.make_aware_utc, reference)
      else if reference.is_naive && e.is_aware then
        (e, reference.make_aware_utc)
      else
        (e, reference)
    match Datetime.sub p.1 p.2 with
    | none => none
    | some td => some (td.days * 86400 + td.seconds)

/-! ## Concrete sample values

Sample rows used to instantiate the theorems below on concrete
inputs. -/

def sampleUser : User := ⟨1, "alice"⟩

def sampleClient : Client :=
  ⟨some sampleUser, "app", "http://app.example", "http://app.example/cb", "cid", "csec", 0⟩

def publicClient : Client :=
  ⟨none, "pub", "http://pub.example", "http://pub.example/cb", "pid", "psec", 1⟩

def sampleCfg : ExpiryConfig := ⟨3600000000, 7200000000, 600000000⟩

def sampleGen : TokenGen := ⟨"LONGTOKEN", "SHORT"⟩

def sampleGrant : Grant :=
  ⟨sampleUser, sampleClient, "GRANTCODE", ⟨600000000, none⟩, "http://app.example/cb", 2⟩

def tokenNoExpiry : AccessToken :=
  ⟨sampleUser, "tok1", sampleClient, none, 2, none, none⟩

def tokenWithExpiry : AccessToken :=
  ⟨sampleUser, "tok2", sampleClient, some ⟨1000000, none⟩, 2, none, none⟩

/-! ## Helper lemmas -/

/-- Python's `td.days*86400 + td.seconds` is the total length of the
timedelta in whole seconds, rounded toward negative infinity. -/
lemma Timedelta.days_mul_add_seconds (td : Timedelta) :
    td.days * 86400 + td.seconds = td.total_us / 1000000 := by
  unfold Timedelta.days Timedelta.seconds
  omega

/-- `get_expire_delta` never raises and always returns the floor, in
whole seconds, of the difference of the two instants, reading naive
values as UTC. -/
lemma get_expire_delta_eq (t : AccessToken) (e reference : Datetime)
    (h : t.expires = some e) :
    t.get_expire_delta reference = some ((e.utc_us - reference.utc_us) / 1000000) := by
  unfold AccessToken.get_expire_delta
  rw [h]
  rcases e with ⟨eu, _ | oe⟩ <;> rcases reference with ⟨ru, _ | orr⟩ <;>
    simp [Datetime.is_aware, Datetime.is_naive, Datetime.make_aware_utc,
      Datetime.sub, Datetime.utc_us, Timedelta.days, Timedelta.seconds] <;>
    omega

/-- Filtering away every element satisfying `p` makes `find? p` come
up empty. -/
lemma find?_filter_not {α : Type} (p : α → Bool) (l : List α) :
    (l.filter fun x => !(p x)).find? p = none := by
  induction l with
  | nil => rfl
  | cons a l ih =>
    by_cases h : p a = true <;> simp [List.filter_cons, h, List.find?_cons, ih]

/-! ## Claim theorems -/

/-- C1 counterexample: the claim says `is_public` is true iff no
owning user is set, but on a client with no user (`publicClient`)
`is_public` returns `false`. -/
theorem C1_counterexample :
    ¬ (Client.is_public publicClient = true ↔ publicClient.user = none) := by
  decide

/-- C1 (amended): `is_public` returns true iff the client HAS an
owning user set (`self.user != None`), the opposite of the claimed
direction. -/
theorem C1_is_public_iff_user_set (c : Client) :
    c.is_public = true ↔ c.user ≠ none := by
  cases h : c.user <;> simp [Client.is_public, h]

/-- C2 counterexample: the claim says the delta is truncated toward
zero, so a token already expired by 1.5 seconds would give `-1`
(`Int.div (-1500000) 1000000`); the code returns `-2` (floor), because
Python's timedelta normalization makes `days` absorb the sign. -/
theorem C2_counterexample :
    AccessToken.get_expire_delta tokenWithExpiry ⟨2500000, none⟩ = some (-2) ∧
      Int.tdiv (1000000 - 2500000) 1000000 = -1 ∧ (-2 : Int) ≠ -1 := by
  refine ⟨?_, by decide, by decide⟩
  decide

/-- C2 (amended): for every saved token (`expires` set),
`get_expire_delta` returns `expires - reference` in whole seconds
rounded toward negative infinity (floor, agreeing with truncation
only when the difference is nonnegative or whole), with naive
timestamps read as UTC. -/
theorem C2_expire_delta_floor (t : AccessToken) (e reference : Datetime)
    (h : t.expires = some e) :
    t.get_expire_delta reference = some ((e.utc_us - reference.utc_us) / 1000000) :=
  get_expire_delta_eq t e reference h

/-- C2 witness: the floor formula evaluated on a concrete token
expired by 1.5 seconds. -/
theorem C2_expire_delta_floor_witness :
    AccessToken.get_expire_delta tokenWithExpiry ⟨2500000, none⟩ = some (-2) :=
  (C2_expire_delta_floor tokenWithExpiry ⟨1000000, none⟩ ⟨2500000, none⟩ rfl).trans
    (by decide)

/-- C3: on mixed aware/naive operands `get_expire_delta` does not
raise; the naive operand is read as UTC and the result is the whole-
second delta of the two UTC-normalized instants. -/
theorem C3_mixed_timezone_safe (t : AccessToken) (e reference : Datetime)
    (h : t.expires = some e) (_hmix : e.is_aware ≠ reference.is_aware) :
    t.get_expire_delta reference ≠ none ∧
      t.get_expire_delta reference = some ((e.utc_us - reference.utc_us) / 1000000) := by
  have he := get_expire_delta_eq t e reference h
  exact ⟨by simp [he], he⟩

/-- C3 witness: naive expiry with an aware (UTC) reference on a
concrete token. -/
theorem C3_mixed_timezone_safe_witness :
    AccessToken.get_expire_delta tokenWithExpiry ⟨2500000, some 0⟩ ≠ none ∧
      AccessToken.get_expire_delta tokenWithExpiry ⟨2500000, some 0⟩ = some (-2) := by
  have h := C3_mixed_timezone_safe tokenWithExpiry ⟨1000000, none⟩ ⟨2500000, some 0⟩
    rfl (by decide)
  exact ⟨h.1, h.2.trans (by decide)⟩

/-- C4 counterexample: the claim is universal over clients, but for a
client with no owning user `serialize` stores the empty-string user
sentinel and `deserialize` then raises `ValueError` when
`cls(**kwargs)` assigns it to the foreign key, so no client is
reconstructed at all. -/
theorem C4_counterexample :
    Client.deserialize (some (Client.serialize publicClient)) =
        .error DjangoError.ValueError ∧
      ¬ ∃ c', Client.deserialize (some (Client.serialize publicClient)) = .ok (some c') ∧
          c'.client_id = publicClient.client_id ∧
          c'.redirect_uri = publicClient.redirect_uri ∧
          c'.client_type = publicClient.client_type := by
  refine ⟨rfl, ?_⟩
  rintro ⟨c', h, -⟩
  rw [show Client.deserialize (some (Client.serialize publicClient)) =
      .error DjangoError.ValueError from rfl] at h
  exact Except.noConfusion h

/-- C4 (amended): for every client WITH an owning user,
serialize/deserialize round-trips the client identifier, redirect
URI, and client type; for a client with no owning user,
`deserialize(serialize(client))` raises `ValueError` (the
empty-string user sentinel fails the foreign-key assignment in
`cls(**kwargs)`); `deserialize` of empty input returns `None` without
raising. -/
theorem C4_serialize_roundtrip (c : Client) :
    (∀ u, c.user = some u →
        ∃ c', Client.deserialize (some c.serialize) = .ok (some c') ∧
          c'.client_id = c.client_id ∧ c'.redirect_uri = c.redirect_uri ∧
          c'.client_type = c.client_type) ∧
      (c.user = none →
        Client.deserialize (some c.serialize) = .error DjangoError.ValueError) ∧
      Client.deserialize none = .ok none := by
  refine ⟨fun u hu => ?_, fun hn => ?_, rfl⟩
  · refine ⟨⟨some (deserialize_instance (serialize_instance u)), c.name, c.url,
        c.redirect_uri, c.client_id, c.client_secret, c.client_type⟩,
      ?_, rfl, rfl, rfl⟩
    simp [Client.serialize, Client.deserialize, hu]
  · simp [Client.serialize, Client.deserialize, hn]

/-- C4 witness: the round-trip on a concrete user-owned client and
the `ValueError` on a concrete user-less client. -/
theorem C4_serialize_roundtrip_witness :
    (∃ c', Client.deserialize (some (Client.serialize sampleClient)) = .ok (some c') ∧
        c'.client_id = sampleClient.client_id ∧
        c'.redirect_uri = sampleClient.redirect_uri ∧
        c'.client_type = sampleClient.client_type) ∧
      Client.deserialize (some (Client.serialize publicClient)) =
        .error DjangoError.ValueError :=
  ⟨(C4_serialize_roundtrip sampleClient).1 sampleUser rfl,
   (C4_serialize_roundtrip publicClient).2.1 rfl⟩

/-- C5: `save` fills an unset expiry from the owning client's default
token-expiry policy evaluated at save time, and leaves an
already-set expiry unchanged. -/
theorem C5_save_sets_default_expiry (t : AccessToken) (cfg : ExpiryConfig)
    (saveTime : Datetime) :
    (t.expires = none →
        (t.save cfg saveTime).expires =
          some (t.client.get_default_token_expiry cfg saveTime)) ∧
      (∀ e, t.expires = some e → (t.save cfg saveTime).expires = some e) := by
  refine ⟨fun h => ?_, fun e he => ?_⟩ <;> simp [AccessToken.save, *]

/-- C5 witness: a token with no expiry gets the client's default; one
with an expiry keeps it. -/
theorem C5_save_sets_default_expiry_witness :
    ((AccessToken.save tokenNoExpiry sampleCfg ⟨0, none⟩).expires =
        some (Client.get_default_token_expiry tokenNoExpiry.client sampleCfg ⟨0, none⟩)) ∧
      (AccessToken.save tokenWithExpiry sampleCfg ⟨0, none⟩).expires =
        some ⟨1000000, none⟩ :=
  ⟨(C5_save_sets_default_expiry tokenNoExpiry sampleCfg ⟨0, none⟩).1 rfl,
   (C5_save_sets_default_expiry tokenWithExpiry sampleCfg ⟨0, none⟩).2 ⟨1000000, none⟩ rfl⟩

/-- C6: issuing a grant and exchanging it with matching client and
redirect URI before expiry succeeds, consuming the grant; a second
exchange of the same code fails with `InvalidGrant`. -/
theorem C6_grant_single_use (store : List Grant) (g : Grant) (now : Datetime)
    (hexp : now.utc_us < g.expires.utc_us) :
    GrantStore.exchange (GrantStore.issue store g) g.code g.client g.redirect_uri now =
        .ok (g, store.filter fun h => !(h.code == g.code && h.client == g.client)) ∧
      GrantStore.exchange
          (store.filter fun h => !(h.code == g.code && h.client == g.client))
          g.code g.client g.redirect_uri now = .error .InvalidGrant := by
  constructor
  · unfold GrantStore.exchange GrantStore.issue
    simp [List.find?_cons, List.filter_cons, hexp]
  · unfold GrantStore.exchange
    rw [find?_filter_not]

/-- C6 witness: a concrete grant exchanged from the empty store. -/
theorem C6_grant_single_use_witness :
    GrantStore.exchange (GrantStore.issue [] sampleGrant) sampleGrant.code
        sampleGrant.client sampleGrant.redirect_uri ⟨0, none⟩ =
        .ok (sampleGrant,
          List.filter (fun h => !(h.code == sampleGrant.code && h.client == sampleGrant.client)) []) ∧
      GrantStore.exchange
          (List.filter (fun h => !(h.code == sampleGrant.code && h.client == sampleGrant.client)) [])
          sampleGrant.code sampleGrant.client sampleGrant.redirect_uri ⟨0, none⟩ =
        .error .InvalidGrant :=
  C6_grant_single_use [] sampleGrant ⟨0, none⟩ (by decide)

/-- C7: `get_default_token_expiry` delegates to `get_token_expiry`
and passes `public = true` exactly when the client's type is the
public enum value `1`. -/
theorem C7_default_expiry_delegates (c : Client) (cfg : ExpiryConfig) (now : Datetime) :
    c.get_default_token_expiry cfg now =
      get_token_expiry cfg (decide (c.client_type = CLIENT_TYPE_PUBLIC)) now := by
  have hb : (c.client_type == 1) = decide (c.client_type = CLIENT_TYPE_PUBLIC) := by
    by_cases h : c.client_type = 1 <;> simp [CLIENT_TYPE_PUBLIC, h]
  simp [Client.get_default_token_expiry, hb]

/-- C8: a grant created without an explicit code or expiry defaults
its expiry to `get_code_expiry` (now plus the configured grant TTL)
and its code to a long token from the generator. -/
theorem C8_grant_defaults (user : User) (client : Client) (ruri : String)
    (cfg : ExpiryConfig) (now : Datetime) (gen : TokenGen) :
    (Grant.create user client none none ruri none cfg now gen).expires =
        get_code_expiry cfg now ∧
      (Grant.create user client none none ruri none cfg now gen).code = long_token gen :=
  ⟨rfl, rfl⟩

/-- C9: an access token created without an explicit scope defaults to
the first defined value of the scope enumeration. -/
theorem C9_scope_default (user : User) (client : Client) (expires : Option Datetime)
    (gen : TokenGen) :
    ∃ s rest, SCOPES = s :: rest ∧
      (AccessToken.create user client none expires none gen).scope = s.1 :=
  ⟨(2, "read"), [(4, "write"), (6, "read+write")], rfl, rfl⟩

/-- C10: `sandbox_client` is truthy iff the client has an owning user
whose username is exactly `oauth2-sandbox-user`; with no owning user
it is never truthy. -/
theorem C10_sandbox_client_iff (c : Client) :
    (c.sandbox_client = true ↔
        ∃ u, c.user = some u ∧ u.username = "oauth2-sandbox-user") ∧
      (c.user = none → c.sandbox_client = false) := by
  cases h : c.user <;> simp [Client.sandbox_client, h]

/-- C10 witness: a client with no owning user is not a sandbox
client. -/
theorem C10_sandbox_client_iff_witness :
    Client.sandbox_client publicClient = false :=
  (C10_sandbox_client_iff publicClient).2 rfl

end Provider
